import Mathlib

/-!
Verification of the Mesh Health Aggregation Engine of kiali-mcp-server.

Shallow embedding of `pkg/kiali/health.go` (the aggregation core): float64
request counters and rates are modelled as exact rationals (ℚ), Go `int`
counters as ℕ (they are only ever incremented from zero), `int32` replica
fields as ℤ (they are only compared, never overflowed), Go maps as
association lists in one fixed iteration order (Go's map order is
unspecified; every aggregate proved here is order-insensitive or stated for
the canonical order), and the five health-status strings as an enumeration
(the source only ever constructs and compares these five values).
The wall-clock `Timestamp` field is omitted from the summary record.
-/

/-- Health status values used throughout the source: the five string
constants "UNKNOWN", "HEALTHY", "NOT_READY", "DEGRADED", "UNHEALTHY". -/
inductive HealthStatus
  | UNKNOWN
  | HEALTHY
  | NOT_READY
  | DEGRADED
  | UNHEALTHY
deriving DecidableEq

open HealthStatus

/-- The priority map inside `mergeHealthStatus` (health.go:670-676). -/
def statusPriority : HealthStatus → Nat
  | UNHEALTHY => 4
  | DEGRADED => 3
  | NOT_READY => 2
  | HEALTHY => 1
  | UNKNOWN => 0

/-- mergeHealthStatus (health.go:669-682): returns the worst of two statuses. -/
def mergeHealthStatus (s1 s2 : HealthStatus) : HealthStatus :=
  if statusPriority s1 > statusPriority s2 then s1 else s2

/-- WorkloadStatus (health.go:321-327); int32 fields modelled as ℤ. -/
structure WorkloadStatus where
  name : String
  desiredReplicas : Int
  currentReplicas : Int
  availableReplicas : Int
  syncedProxies : Int
deriving DecidableEq

/-- RequestHealth (health.go:330-334): direction → protocol → code → count,
maps modelled as association lists, float64 counts as ℚ. -/
structure RequestHealth where
  inbound : List (String × List (String × ℚ))
  outbound : List (String × List (String × ℚ))
  healthAnnotations : List (String × String)
deriving DecidableEq

/-- AppHealth (health.go:304-307). -/
structure AppHealth where
  workloadStatuses : List WorkloadStatus
  requests : RequestHealth
deriving DecidableEq

/-- ServiceHealth (health.go:310-312). -/
structure ServiceHealth where
  requests : RequestHealth
deriving DecidableEq

/-- WorkloadHealth (health.go:315-318). -/
structure WorkloadHealth where
  workloadStatus : Option WorkloadStatus
  requests : RequestHealth
deriving DecidableEq

/-- The Go test `len(code) == 3 && code[0] == d` used by `isErrorCode` and
`getStatusForCodeRatio` for the 4xx / 5xx code classes. -/
def isCodeClass (d : Char) (code : String) : Bool :=
  match code.data with
  | [c, _, _] => c == d
  | _ => false

/-- isErrorCode (health.go:719-744). -/
def isErrorCode (protocol code : String) : Bool :=
  if protocol = "http" then
    if code = "-" then true
    else if isCodeClass '4' code then true
    else if isCodeClass '5' code then true
    else false
  else if protocol = "grpc" then
    if code = "-" then true
    else if code ≠ "0" then true
    else false
  else false

/-- getStatusForCodeRatio (health.go:802-840): Kiali default tolerances.
Each inner branch falls through to HEALTHY when no threshold is met,
exactly as the Go function falls through to its final return. -/
def getStatusForCodeRatio (protocol code : String) (ratio : ℚ) : HealthStatus :=
  let percentage := ratio * 100
  if protocol = "http" then
    if code = "-" then
      if percentage ≥ 10 then UNHEALTHY else if percentage > 0 then DEGRADED else HEALTHY
    else if isCodeClass '5' code then
      if percentage ≥ 10 then UNHEALTHY else if percentage > 0 then DEGRADED else HEALTHY
    else if isCodeClass '4' code then
      if percentage ≥ 20 then UNHEALTHY else if percentage ≥ 10 then DEGRADED else HEALTHY
    else HEALTHY
  else if protocol = "grpc" then
    if code ≠ "0" then
      if percentage ≥ 10 then UNHEALTHY else if percentage > 0 then DEGRADED else HEALTHY
    else HEALTHY
  else HEALTHY

/-- Body of the per-code loop inside `processRequests` in
evaluateRequestHealth (health.go:767-790); the state is (status, worstRatio). -/
def processCode (protocol : String) (totalForProtocol : ℚ)
    (st : HealthStatus × ℚ) (entry : String × ℚ) : HealthStatus × ℚ :=
  if isErrorCode protocol entry.1 then
    let ratio := entry.2 / totalForProtocol
    let worstRatio := if ratio > st.2 then ratio else st.2
    let codeStatus := getStatusForCodeRatio protocol entry.1 ratio
    let status :=
      if codeStatus = UNHEALTHY then UNHEALTHY
      else if codeStatus = DEGRADED ∧ st.1 = HEALTHY then DEGRADED
      else st.1
    (status, worstRatio)
  else st

/-- Body of the per-protocol loop inside `processRequests`
(health.go:754-791): protocols whose total count is zero are skipped. -/
def processProtocol (st : HealthStatus × ℚ) (entry : String × List (String × ℚ)) :
    HealthStatus × ℚ :=
  let totalForProtocol := (entry.2.map Prod.snd).sum
  if totalForProtocol = 0 then st
  else entry.2.foldl (processCode entry.1 totalForProtocol) st

/-- The `processRequests` closure of evaluateRequestHealth (health.go:753-792). -/
def processRequests (st : HealthStatus × ℚ)
    (requests : List (String × List (String × ℚ))) : HealthStatus × ℚ :=
  requests.foldl processProtocol st

/-- evaluateRequestHealth (health.go:748-798): worst tolerance classification
and worst error ratio over inbound then outbound traffic. -/
def evaluateRequestHealth (req : RequestHealth) : HealthStatus × ℚ :=
  processRequests (processRequests (HEALTHY, 0) req.inbound) req.outbound

/-- hasAnyRequests (health.go:556-574). -/
def hasAnyRequests (req : RequestHealth) : Bool :=
  req.inbound.any (fun p => p.2.any (fun c => c.2 > 0)) ||
  req.outbound.any (fun p => p.2.any (fun c => c.2 > 0))

/-- Accumulation loop of calculateErrorRate over one direction
(health.go:692-709); the state is (totalRequests, errorRequests). -/
def calcDirection (acc : ℚ × ℚ) (requests : List (String × List (String × ℚ))) : ℚ × ℚ :=
  requests.foldl
    (fun a p => p.2.foldl
      (fun b c =>
        (b.1 + c.2, if isErrorCode p.1 c.1 then b.2 + c.2 else b.2)) a) acc

/-- calculateErrorRate (health.go:687-715): pooled error fraction over both
directions and all protocols, 0 when there were no requests. -/
def calculateErrorRate (req : RequestHealth) : ℚ :=
  let acc := calcDirection (calcDirection (0, 0) req.inbound) req.outbound
  if acc.1 = 0 then 0 else acc.2 / acc.1

/-- Renders a rational with two decimal places, modelling Go's `%.2f`
formatting of a float64 (rounding mode: half away handled as half up;
no classified value in this development depends on the rendered text). -/
def fmtF2 (q : ℚ) : String :=
  let n : Int := ⌊q * 100 + 1/2⌋
  let a := n.natAbs
  let frac := a % 100
  let fracStr := if frac < 10 then "0" ++ toString frac else toString frac
  let body := toString (a / 100) ++ "." ++ fracStr
  if n < 0 then "-" ++ body else body

/-- The issue string `fmt.Sprintf("error rate: %.2f%%", errorRate*100)`
(health.go:531, 550, 613). -/
def fmtErrorRateIssue (errorRate : ℚ) : String :=
  "error rate: " ++ fmtF2 (errorRate * 100) ++ "%"

/-- The issue string `fmt.Sprintf("%d/%d replicas available", ...)`. -/
def fmtReplicasIssue (available desired : Int) : String :=
  toString available ++ "/" ++ toString desired ++ " replicas available"

/-- The issue string `fmt.Sprintf("%d/%d proxies synced", ...)`. -/
def fmtProxiesIssue (synced available : Int) : String :=
  toString synced ++ "/" ++ toString available ++ " proxies synced"

/-- Body of the WorkloadStatuses loop in evaluateAppHealth
(health.go:500-526); state is (workloadStatus, unhealthyCount, issue).
`unhealthyCount` is carried exactly as in the source, where it is
incremented but never read. -/
def appWorkloadStep (st : HealthStatus × Nat × String) (ws : WorkloadStatus) :
    HealthStatus × Nat × String :=
  if ws.desiredReplicas = 0 then
    (NOT_READY, st.2.1, "scaled to 0 replicas")
  else
    let afterAvail :=
      if ws.availableReplicas < ws.desiredReplicas then
        ((if ws.availableReplicas = 0 then UNHEALTHY
          else if st.1 ≠ UNHEALTHY then DEGRADED else st.1),
         st.2.1 + 1,
         fmtReplicasIssue ws.availableReplicas ws.desiredReplicas)
      else st
    if ws.syncedProxies ≥ 0 ∧ ws.syncedProxies < ws.availableReplicas then
      ((if afterAvail.1 = HEALTHY then DEGRADED else afterAvail.1),
       afterAvail.2.1,
       (if afterAvail.2.2 = "" then fmtProxiesIssue ws.syncedProxies ws.availableReplicas
        else afterAvail.2.2))
    else afterAvail

/-- evaluateAppHealth (health.go:491-537). -/
def evaluateAppHealth (app : AppHealth) : HealthStatus × String :=
  if app.workloadStatuses.length = 0 then (UNKNOWN, "no workloads found")
  else
    let wsRes := app.workloadStatuses.foldl appWorkloadStep (HEALTHY, 0, "")
    let reqRes := evaluateRequestHealth app.requests
    let issue := if reqRes.2 > 0 ∧ wsRes.2.2 = "" then fmtErrorRateIssue reqRes.2 else wsRes.2.2
    (mergeHealthStatus wsRes.1 reqRes.1, issue)

/-- evaluateServiceHealth (health.go:540-553); the issue variable is still
empty when the error-rate check runs, so the check reduces to the rate test. -/
def evaluateServiceHealth (svc : ServiceHealth) : HealthStatus × String :=
  if ¬ hasAnyRequests svc.requests then (UNKNOWN, "")
  else
    let reqRes := evaluateRequestHealth svc.requests
    (reqRes.1, if reqRes.2 > 0 then fmtErrorRateIssue reqRes.2 else "")

/-- The single-WorkloadStatus rules of evaluateWorkloadHealth
(health.go:580-603); unlike the app loop the availability shortfall is an
`else if` of the scale-to-zero test. -/
def workloadStatusEval (ws : WorkloadStatus) : HealthStatus × String :=
  let base :=
    if ws.desiredReplicas = 0 then (NOT_READY, "scaled to 0 replicas")
    else if ws.availableReplicas < ws.desiredReplicas then
      ((if ws.availableReplicas = 0 then UNHEALTHY else DEGRADED),
       fmtReplicasIssue ws.availableReplicas ws.desiredReplicas)
    else (HEALTHY, "")
  if ws.syncedProxies ≥ 0 ∧ ws.syncedProxies < ws.availableReplicas then
    ((if base.1 = HEALTHY then DEGRADED else base.1),
     (if base.2 = "" then fmtProxiesIssue ws.syncedProxies ws.availableReplicas else base.2))
  else base

/-- evaluateWorkloadHealth (health.go:577-619). -/
def evaluateWorkloadHealth (wl : WorkloadHealth) : HealthStatus × String :=
  let wsRes :=
    match wl.workloadStatus with
    | none => (HEALTHY, "")
    | some ws => workloadStatusEval ws
  let reqRes := evaluateRequestHealth wl.requests
  if ¬ hasAnyRequests wl.requests ∧ wl.workloadStatus = none then (UNKNOWN, "")
  else
    let issue := if reqRes.2 > 0 ∧ wsRes.2 = "" then fmtErrorRateIssue reqRes.2 else wsRes.2
    (mergeHealthStatus wsRes.1 reqRes.1, issue)

/-- HealthCounts (health.go:175-181); Go int counters modelled as ℕ,
they are only ever incremented starting from the zero value. -/
structure HealthCounts where
  total : Nat
  healthy : Nat
  degraded : Nat
  unhealthy : Nat
  notReady : Nat
deriving DecidableEq

/-- The Go zero value of HealthCounts. -/
def zeroCounts : HealthCounts := ⟨0, 0, 0, 0, 0⟩

/-- Componentwise sum of two HealthCounts; used to relate the mesh-wide
counters (incremented entity by entity in the source) to per-namespace
tallies. -/
def addCounts (a b : HealthCounts) : HealthCounts :=
  ⟨a.total + b.total, a.healthy + b.healthy, a.degraded + b.degraded,
   a.unhealthy + b.unhealthy, a.notReady + b.notReady⟩

/-- EntityHealthCounts (health.go:168-172). -/
structure EntityHealthCounts where
  apps : HealthCounts
  services : HealthCounts
  workloads : HealthCounts
deriving DecidableEq

/-- The Go zero value of EntityHealthCounts. -/
def zeroEntityCounts : EntityHealthCounts := ⟨zeroCounts, zeroCounts, zeroCounts⟩

/-- NamespaceSummary (health.go:184-191). -/
structure NamespaceSummary where
  status : HealthStatus
  availability : ℚ
  errorRate : ℚ
  apps : HealthCounts
  services : HealthCounts
  workloads : HealthCounts
deriving DecidableEq

/-- UnhealthyEntity (health.go:194-201); the Go fields `Type` and
`Namespace` are Lean keywords and are renamed `etype` / `namespaceName`. -/
structure UnhealthyEntity where
  etype : String
  namespaceName : String
  name : String
  status : HealthStatus
  issue : String
  errorRate : ℚ
deriving DecidableEq

/-- computeNamespaceStatus (health.go:843-857); the float literals 0.01 and
0.05 are the exact rationals 1/100 and 5/100, and `totalEntities/2` is Go
integer division. -/
def computeNamespaceStatus (ns : NamespaceSummary) : HealthStatus :=
  let totalUnhealthy := ns.apps.unhealthy + ns.services.unhealthy + ns.workloads.unhealthy
  let totalEntities := ns.apps.total + ns.services.total + ns.workloads.total
  if totalEntities = 0 then UNKNOWN
  else if totalUnhealthy = 0 ∧ ns.errorRate < 1/100 then HEALTHY
  else if totalUnhealthy > totalEntities / 2 ∨ ns.errorRate > 5/100 then UNHEALTHY
  else DEGRADED

/-- computeAvailability (health.go:860-870). -/
def computeAvailability (ns : NamespaceSummary) : ℚ :=
  let total := ns.apps.total + ns.services.total + ns.workloads.total
  if total = 0 then 100
  else
    let healthy := ns.apps.healthy + ns.services.healthy + ns.workloads.healthy
    let degraded := ns.apps.degraded + ns.services.degraded + ns.workloads.degraded
    ((healthy : ℚ) + (degraded : ℚ) * (5/10)) / (total : ℚ) * 100

/-- computeOverallStatus (health.go:873-896): mesh-wide status from the
mesh-wide entity counts alone (it takes no error-rate input). -/
def computeOverallStatus (counts : EntityHealthCounts) : HealthStatus :=
  let total := counts.apps.total + counts.services.total + counts.workloads.total
  let unhealthy := counts.apps.unhealthy + counts.services.unhealthy + counts.workloads.unhealthy
  let degraded := counts.apps.degraded + counts.services.degraded + counts.workloads.degraded
  if total = 0 then UNKNOWN
  else if unhealthy > 0 then
    if unhealthy > total / 2 then UNHEALTHY else DEGRADED
  else if degraded > 0 then DEGRADED
  else HEALTHY

/-- computeOverallAvailability (health.go:899-909). -/
def computeOverallAvailability (counts : EntityHealthCounts) : ℚ :=
  let total := counts.apps.total + counts.services.total + counts.workloads.total
  if total = 0 then 100
  else
    let healthy := counts.apps.healthy + counts.services.healthy + counts.workloads.healthy
    let degraded := counts.apps.degraded + counts.services.degraded + counts.workloads.degraded
    ((healthy : ℚ) + (degraded : ℚ) * (5/10)) / (total : ℚ) * 100

/-- computeTotalErrorRate (health.go:912-918). -/
def computeTotalErrorRate (nsSummaries : List (String × NamespaceSummary)) : ℚ :=
  nsSummaries.foldl (fun t p => t + p.2.errorRate) 0

/-- Inner loop of sortUnhealthyByImpact (health.go:923-929) for one fixed
outer index: `cur` holds the entry currently at position `i`; whenever a
later entry has a strictly greater error rate the two are swapped. Returns
the final occupant of position `i` and the rest of the slice. -/
def selectSwap (cur : UnhealthyEntity) : List UnhealthyEntity →
    UnhealthyEntity × List UnhealthyEntity
  | [] => (cur, [])
  | x :: xs =>
    if x.errorRate > cur.errorRate then
      let r := selectSwap x xs
      (r.1, cur :: r.2)
    else
      let r := selectSwap cur xs
      (r.1, x :: r.2)

/-- Outer loop of sortUnhealthyByImpact, by fuel on the list length
(each pass shortens the unsorted suffix by exactly one). -/
def sortPass : Nat → List UnhealthyEntity → List UnhealthyEntity
  | 0, l => l
  | _ + 1, [] => []
  | n + 1, x :: xs =>
    let r := selectSwap x xs
    r.1 :: sortPass n r.2

/-- sortUnhealthyByImpact (health.go:921-930): the source's exchange sort by
errorRate descending, swapping whenever a later element is strictly
greater. -/
def sortUnhealthyByImpact (l : List UnhealthyEntity) : List UnhealthyEntity :=
  sortPass l.length l

/-- ClustersNamespaceHealth (health.go:288-292), with each namespace map as
an association list. -/
structure ClustersNamespaceHealth where
  appHealth : List (String × List (String × AppHealth))
  serviceHealth : List (String × List (String × ServiceHealth))
  workloadHealth : List (String × List (String × WorkloadHealth))

/-- MeshHealthSummary (health.go:155-165); the wall-clock `Timestamp` field
is omitted. -/
structure MeshHealthSummary where
  overallStatus : HealthStatus
  availability : ℚ
  totalErrorRate : ℚ
  namespaceCount : Nat
  entityCounts : EntityHealthCounts
  namespaceSummary : List (String × NamespaceSummary)
  topUnhealthy : List UnhealthyEntity
  rateInterval : String

/-- Accumulator for one entity type within one namespace: its HealthCounts,
the UnhealthyEntity records appended so far, and the error-rate sum. -/
structure EntityTally where
  counts : HealthCounts
  unhealthy : List UnhealthyEntity
  errSum : ℚ

/-- Tally with every field at the Go zero value. -/
def emptyTally : EntityTally := ⟨zeroCounts, [], 0⟩

/-- The switch on the classified status inside computeHealthSummary
(e.g. health.go:375-396 for apps): exactly one of the four buckets is
incremented, and none for UNKNOWN. -/
def bucketInc (counts : HealthCounts) (status : HealthStatus) : HealthCounts :=
  match status with
  | HEALTHY => { counts with healthy := counts.healthy + 1 }
  | NOT_READY => { counts with notReady := counts.notReady + 1 }
  | DEGRADED => { counts with degraded := counts.degraded + 1 }
  | UNHEALTHY => { counts with unhealthy := counts.unhealthy + 1 }
  | UNKNOWN => counts

/-- Per-entity body of the three per-type loops of computeHealthSummary
(health.go:370-399, 404-433, 438-467): Total is incremented
unconditionally, the classified bucket is incremented, UNHEALTHY entities
are appended to the global list, and the entity's pooled error rate is
added to the namespace error-rate sum. -/
def tallyEntity {α : Type} (etype ns : String) (eval : α → HealthStatus × String)
    (getReq : α → RequestHealth) (acc : EntityTally) (entry : String × α) : EntityTally :=
  let status := (eval entry.2).1
  let issue := (eval entry.2).2
  let rate := calculateErrorRate (getReq entry.2)
  { counts := bucketInc { acc.counts with total := acc.counts.total + 1 } status,
    unhealthy :=
      if status = UNHEALTHY then
        acc.unhealthy ++ [⟨etype, ns, entry.1, status, issue, rate⟩]
      else acc.unhealthy,
    errSum := acc.errSum + rate }

/-- One entity-type loop of computeHealthSummary over a namespace's
entities. -/
def tallyEntities {α : Type} (etype ns : String) (eval : α → HealthStatus × String)
    (getReq : α → RequestHealth) (entities : List (String × α)) (init : EntityTally) :
    EntityTally :=
  entities.foldl (tallyEntity etype ns eval getReq) init

/-- The app entities of one namespace (`appHealth.AppHealth[ns]`, absent
namespaces contribute no entities). -/
def nsAppEntities (appH : ClustersNamespaceHealth) (ns : String) : List (String × AppHealth) :=
  (appH.appHealth.lookup ns).getD []

/-- The service entities of one namespace. -/
def nsServiceEntities (svcH : ClustersNamespaceHealth) (ns : String) :
    List (String × ServiceHealth) :=
  (svcH.serviceHealth.lookup ns).getD []

/-- The workload entities of one namespace. -/
def nsWorkloadEntities (wlH : ClustersNamespaceHealth) (ns : String) :
    List (String × WorkloadHealth) :=
  (wlH.workloadHealth.lookup ns).getD []

/-- The union of namespace keys across the three payloads
(health.go:352-361); Go iterates the set in unspecified order, modelled
here as first-occurrence order. -/
def summaryNamespaces (appH svcH wlH : ClustersNamespaceHealth) : List String :=
  ((appH.appHealth.map Prod.fst) ++ (svcH.serviceHealth.map Prod.fst) ++
    (wlH.workloadHealth.map Prod.fst)).eraseDups

/-- Per-namespace body of computeHealthSummary (health.go:365-474):
tallies the three entity types, derives the namespace summary, and folds
the tallies into the running mesh-wide accumulator
(entity counts, namespace summaries, unhealthy list). -/
def summaryStep (appH svcH wlH : ClustersNamespaceHealth)
    (acc : EntityHealthCounts × List (String × NamespaceSummary) × List UnhealthyEntity)
    (ns : String) :
    EntityHealthCounts × List (String × NamespaceSummary) × List UnhealthyEntity :=
  let appT := tallyEntities "app" ns evaluateAppHealth (fun a => a.requests)
    (nsAppEntities appH ns) emptyTally
  let svcT := tallyEntities "service" ns evaluateServiceHealth (fun s => s.requests)
    (nsServiceEntities svcH ns) emptyTally
  let wlT := tallyEntities "workload" ns evaluateWorkloadHealth (fun w => w.requests)
    (nsWorkloadEntities wlH ns) emptyTally
  let base : NamespaceSummary :=
    { status := UNKNOWN, availability := 0,
      errorRate := appT.errSum + svcT.errSum + wlT.errSum,
      apps := appT.counts, services := svcT.counts, workloads := wlT.counts }
  let nsSummary :=
    { base with status := computeNamespaceStatus base, availability := computeAvailability base }
  (⟨addCounts acc.1.apps appT.counts, addCounts acc.1.services svcT.counts,
    addCounts acc.1.workloads wlT.counts⟩,
   acc.2.1 ++ [(ns, nsSummary)],
   acc.2.2 ++ appT.unhealthy ++ svcT.unhealthy ++ wlT.unhealthy)

/-- computeHealthSummary (health.go:337-488): aggregates the three parsed
payloads into the mesh summary; the final unhealthy list is sorted and
truncated to 10 entries (health.go:481-485). -/
def computeHealthSummary (appHealth svcHealth wlHealth : ClustersNamespaceHealth)
    (rateInterval : String) : MeshHealthSummary :=
  let nsNames := summaryNamespaces appHealth svcHealth wlHealth
  let folded := nsNames.foldl (summaryStep appHealth svcHealth wlHealth)
    (zeroEntityCounts, [], [])
  { overallStatus := computeOverallStatus folded.1,
    availability := computeOverallAvailability folded.1,
    totalErrorRate := computeTotalErrorRate folded.2.1,
    namespaceCount := nsNames.length,
    entityCounts := folded.1,
    namespaceSummary := folded.2.1,
    topUnhealthy := (sortUnhealthyByImpact folded.2.2).take 10,
    rateInterval := rateInterval }

/-- The error-check sequence of MeshHealthSummary after the three
concurrent fetches complete (health.go:250-284): the first failure aborts
the whole call with an error naming the entity type and wrapping the cause
(`fmt.Errorf("failed to fetch app health: %v", errApp)` and its two
siblings); only when all three succeed is the computed summary returned.
The JSON decode/encode steps, which operate on the wire representation,
are outside the embedding. -/
def meshHealthSummaryFromResults
    (appRes svcRes wlRes : Except String ClustersNamespaceHealth)
    (rateInterval : String) : Except String MeshHealthSummary :=
  match appRes with
  | .error e => .error ("failed to fetch app health: " ++ e)
  | .ok appH =>
    match svcRes with
    | .error e => .error ("failed to fetch service health: " ++ e)
    | .ok svcH =>
      match wlRes with
      | .error e => .error ("failed to fetch workload health: " ++ e)
      | .ok wlH => .ok (computeHealthSummary appH svcH wlH rateInterval)

/-- Sum of the four status buckets of a HealthCounts record (the spec calls
the record a partition of `total` into these four buckets). -/
def bucketSum (c : HealthCounts) : Nat :=
  c.healthy + c.degraded + c.unhealthy + c.notReady

/-- Number of entities in a namespace's entity list that the classifier
sends to UNKNOWN (the bucket the source never counts). -/
def unknownCountIn {α : Type} (eval : α → HealthStatus × String)
    (entities : List (String × α)) : Nat :=
  entities.countP (fun e => (eval e.2).1 == UNKNOWN)

/-- Mesh-wide number of UNKNOWN-classified apps across the processed
namespaces. -/
def appUnknownTotal (appH : ClustersNamespaceHealth) (nss : List String) : Nat :=
  (nss.map (fun ns => unknownCountIn evaluateAppHealth (nsAppEntities appH ns))).sum

/-- Mesh-wide number of UNKNOWN-classified services. -/
def svcUnknownTotal (svcH : ClustersNamespaceHealth) (nss : List String) : Nat :=
  (nss.map (fun ns => unknownCountIn evaluateServiceHealth (nsServiceEntities svcH ns))).sum

/-- Mesh-wide number of UNKNOWN-classified workloads. -/
def wlUnknownTotal (wlH : ClustersNamespaceHealth) (nss : List String) : Nat :=
  (nss.map (fun ns => unknownCountIn evaluateWorkloadHealth (nsWorkloadEntities wlH ns))).sum

/-- The namespace status rule exactly as the spec words it (§4.3), with
"more than half of all entities" as the exact comparison
`2 * unhealthy > total`; stated for comparison with the source's
`computeNamespaceStatus`. -/
def specNamespaceStatus (ns : NamespaceSummary) : HealthStatus :=
  let totalUnhealthy := ns.apps.unhealthy + ns.services.unhealthy + ns.workloads.unhealthy
  let totalEntities := ns.apps.total + ns.services.total + ns.workloads.total
  if totalEntities = 0 then UNKNOWN
  else if totalUnhealthy = 0 ∧ ns.errorRate < 1/100 then HEALTHY
  else if 2 * totalUnhealthy > totalEntities ∨ ns.errorRate > 5/100 then UNHEALTHY
  else DEGRADED

/-- The mesh-wide status rule the spec claims: the namespace rules
(as implemented by the source's `computeNamespaceStatus`) applied to the
mesh-wide counts and the mesh-wide total error rate. -/
def meshOverallStatusSpec (counts : EntityHealthCounts) (errorRate : ℚ) : HealthStatus :=
  computeNamespaceStatus
    { status := UNKNOWN, availability := 0, errorRate := errorRate,
      apps := counts.apps, services := counts.services, workloads := counts.workloads }

/-- Pooled request total of a RequestHealth: every count over both
directions and all protocols. -/
def totalRequestCount (req : RequestHealth) : ℚ :=
  ((req.inbound ++ req.outbound).map (fun p => (p.2.map Prod.snd).sum)).sum

/-- Pooled error total of a RequestHealth: counts of error-classified codes
over both directions and all protocols. -/
def errorRequestCount (req : RequestHealth) : ℚ :=
  ((req.inbound ++ req.outbound).map
    (fun p => ((p.2.filter (fun c => isErrorCode p.1 c.1)).map Prod.snd).sum)).sum

/-- Payload with a single app that has no workload statuses: the classifier
sends it to UNKNOWN (health.go:494-496). -/
def exC1App : ClustersNamespaceHealth :=
  ⟨[("ns1", [("a1", ⟨[], ⟨[], [], []⟩⟩)])], [], []⟩

/-- The empty three-map payload. -/
def exEmptyClusters : ClustersNamespaceHealth := ⟨[], [], []⟩

/-- App scaled to zero replicas whose traffic is 100% http 500 errors. -/
def exC2App : AppHealth :=
  ⟨[⟨"w1", 0, 0, 0, 0⟩], ⟨[("http", [("500", 10)])], [], []⟩⟩

/-- Workload scaled to zero replicas whose traffic is 100% http 500 errors. -/
def exC2Workload : WorkloadHealth :=
  ⟨some ⟨"w1", 0, 0, 0, 0⟩, ⟨[("http", [("500", 10)])], [], []⟩⟩

/-- An unhealthy-entity record carrying only a name (to witness discovery
order) and an error rate. -/
def exC4 (nm : String) (r : ℚ) : UnhealthyEntity :=
  ⟨"app", "ns", nm, UNHEALTHY, "", r⟩

/-- Discovery-ordered list with two tied pairs of error rates. -/
def exC4Input : List UnhealthyEntity :=
  [exC4 "a" 2, exC4 "b" 3, exC4 "c" 2, exC4 "d" 3]

/-- Traffic split over two protocols: 1 grpc error among 101 pooled
requests, but a 100% error ratio within the grpc protocol. -/
def exC10 : RequestHealth :=
  ⟨[("http", [("200", 100)]), ("grpc", [("1", 1)])], [], []⟩

/-- C8: for every pair of health statuses, `mergeHealthStatus` returns the
one with the higher priority under
UNHEALTHY(4) > DEGRADED(3) > NOT_READY(2) > HEALTHY(1) > UNKNOWN(0);
in particular merging UNHEALTHY with HEALTHY gives UNHEALTHY and merging
UNKNOWN with HEALTHY gives HEALTHY. -/
theorem mergeHealthStatus_picks_higher_priority :
    ∀ s1 s2 : HealthStatus,
      statusPriority (mergeHealthStatus s1 s2)
          = max (statusPriority s1) (statusPriority s2)
      ∧ (mergeHealthStatus s1 s2 = s1 ∨ mergeHealthStatus s1 s2 = s2)
      ∧ mergeHealthStatus UNHEALTHY HEALTHY = UNHEALTHY
      ∧ mergeHealthStatus UNKNOWN HEALTHY = HEALTHY := by
  intro s1 s2
  cases s1 <;> cases s2 <;> exact ⟨by decide, by decide, by decide, by decide⟩

/-- C9: if any of the three entity-type fetch results is an error, the
aggregation returns an error naming that entity type's fetch and carrying
the underlying cause, and no summary is produced; only when all three
succeed is the computed summary returned. -/
theorem meshHealthSummary_fetch_error_propagation :
    ∀ (e ri : String) (appH svcH wlH : ClustersNamespaceHealth)
      (svcRes wlRes : Except String ClustersNamespaceHealth),
      meshHealthSummaryFromResults (.error e) svcRes wlRes ri
          = .error ("failed to fetch app health: " ++ e)
      ∧ meshHealthSummaryFromResults (.ok appH) (.error e) wlRes ri
          = .error ("failed to fetch service health: " ++ e)
      ∧ meshHealthSummaryFromResults (.ok appH) (.ok svcH) (.error e) ri
          = .error ("failed to fetch workload health: " ++ e)
      ∧ meshHealthSummaryFromResults (.ok appH) (.ok svcH) (.ok wlH) ri
          = .ok (computeHealthSummary appH svcH wlH ri) := by
  intro e ri appH svcH wlH svcRes wlRes
  exact ⟨rfl, rfl, rfl, rfl⟩

/-- C5: `computeNamespaceStatus` implements exactly the spec's rule chain
(UNKNOWN when no entities; HEALTHY when zero unhealthy and error-rate sum
below 1%; UNHEALTHY when more than half the entities are unhealthy or the
error-rate sum exceeds 5%; DEGRADED otherwise), and on 10 entities it
returns UNHEALTHY for 6 unhealthy and DEGRADED for 5 unhealthy. -/
theorem computeNamespaceStatus_matches_spec_rules :
    (∀ ns : NamespaceSummary, computeNamespaceStatus ns = specNamespaceStatus ns)
    ∧ computeNamespaceStatus
        ⟨UNKNOWN, 0, 0, ⟨10, 4, 0, 6, 0⟩, zeroCounts, zeroCounts⟩ = UNHEALTHY
    ∧ computeNamespaceStatus
        ⟨UNKNOWN, 0, 0, ⟨10, 5, 0, 5, 0⟩, zeroCounts, zeroCounts⟩ = DEGRADED := by
  refine ⟨fun ns => ?_, by norm_num [computeNamespaceStatus, zeroCounts],
    by norm_num [computeNamespaceStatus, zeroCounts]⟩
  simp only [computeNamespaceStatus, specNamespaceStatus]
  by_cases h1 : ns.apps.total + ns.services.total + ns.workloads.total = 0
  · simp [h1]
  · by_cases h2 : ns.apps.unhealthy + ns.services.unhealthy + ns.workloads.unhealthy = 0
        ∧ ns.errorRate < 1 / 100
    · simp [h1, h2]
    · by_cases h3 : ns.apps.unhealthy + ns.services.unhealthy + ns.workloads.unhealthy
          > (ns.apps.total + ns.services.total + ns.workloads.total) / 2
      · have h3' : 2 * (ns.apps.unhealthy + ns.services.unhealthy + ns.workloads.unhealthy)
            > ns.apps.total + ns.services.total + ns.workloads.total := by omega
        simp [h1, h2, h3, h3']
      · have h3' : ¬ (2 * (ns.apps.unhealthy + ns.services.unhealthy + ns.workloads.unhealthy)
            > ns.apps.total + ns.services.total + ns.workloads.total) := by omega
        simp [h1, h2, h3, h3']

/-- A code in the 4xx/5xx class is a three-character string starting with
the class digit. -/
theorem isCodeClass_shape (d : Char) (code : String)
    (h : isCodeClass d code = true) : ∃ c2 c3, code = ⟨[d, c2, c3]⟩ := by
  rcases code with ⟨l⟩
  rcases l with _ | ⟨a, _ | ⟨b, _ | ⟨c, _ | ⟨e, t⟩⟩⟩⟩ <;>
    simp [isCodeClass] at h
  exact ⟨b, c, by rw [h]⟩

/-- A three-character code starting with '4' is not the sentinel "-". -/
theorem codeClass4_ne_dash (c2 c3 : Char) : (⟨['4', c2, c3]⟩ : String) ≠ "-" := by
  intro h
  have hd := congrArg String.data h
  simp at hd

/-- A three-character code starting with '4' is not in the 5xx class. -/
theorem codeClass4_not_5 (c2 c3 : Char) :
    isCodeClass '5' (⟨['4', c2, c3]⟩ : String) = false := by
  simp [isCodeClass]

/-- C6: for an http 4xx code, `getStatusForCodeRatio` classifies an error
ratio of at least 20% as UNHEALTHY, a ratio in [10%, 20%) as DEGRADED and a
ratio below 10% as HEALTHY — both thresholds inclusive — so exactly 10% is
DEGRADED, exactly 20% is UNHEALTHY and 9.9% is HEALTHY. -/
theorem getStatusForCodeRatio_http4xx_thresholds :
    ∀ (code : String) (ratio : ℚ), isCodeClass '4' code = true →
      (ratio * 100 ≥ 20 → getStatusForCodeRatio "http" code ratio = UNHEALTHY)
      ∧ (ratio * 100 ≥ 10 → ratio * 100 < 20 →
          getStatusForCodeRatio "http" code ratio = DEGRADED)
      ∧ (ratio * 100 < 10 → getStatusForCodeRatio "http" code ratio = HEALTHY)
      ∧ getStatusForCodeRatio "http" "404" (10/100) = DEGRADED
      ∧ getStatusForCodeRatio "http" "404" (20/100) = UNHEALTHY
      ∧ getStatusForCodeRatio "http" "404" (99/1000) = HEALTHY := by
  intro code ratio h4
  obtain ⟨c2, c3, rfl⟩ := isCodeClass_shape '4' code h4
  have hdash := codeClass4_ne_dash c2 c3
  have h5 := codeClass4_not_5 c2 c3
  refine ⟨?_, ?_, ?_, ?_, ?_, ?_⟩
  · intro h20
    simp [getStatusForCodeRatio, hdash, h5, h4, h20]
  · intro h10 h20
    have h20' : ¬ ratio * 100 ≥ 20 := by linarith
    simp [getStatusForCodeRatio, hdash, h5, h4, h10, h20']
  · intro h10
    have h20' : ¬ ratio * 100 ≥ 20 := by linarith
    have h10' : ¬ ratio * 100 ≥ 10 := by linarith
    simp [getStatusForCodeRatio, hdash, h5, h4, h20', h10']
  · norm_num [getStatusForCodeRatio, isCodeClass]
    try simp
  · norm_num [getStatusForCodeRatio, isCodeClass]
    try simp
  · norm_num [getStatusForCodeRatio, isCodeClass]
    try simp

/-- C6 witness: the general threshold theorem instantiated at the code
"404" with a 15% ratio. -/
theorem getStatusForCodeRatio_http4xx_thresholds_witness :
    getStatusForCodeRatio "http" "404" (15/100) = DEGRADED :=
  (getStatusForCodeRatio_http4xx_thresholds "404" (15/100) (by decide)).2.1
    (by norm_num) (by norm_num)

/-- One step of the app workload loop on a scaled-to-zero workload status:
the status becomes NOT_READY and the remaining checks are skipped. -/
theorem appWorkloadStep_scaled_to_zero (st : HealthStatus × Nat × String)
    (ws : WorkloadStatus) (h : ws.desiredReplicas = 0) :
    appWorkloadStep st ws = (NOT_READY, st.2.1, "scaled to 0 replicas") := by
  simp [appWorkloadStep, h]

/-- The whole app workload loop on a nonempty list of scaled-to-zero
workload statuses ends at NOT_READY with the scale-down issue string. -/
theorem appFold_scaled_to_zero (l : List WorkloadStatus) :
    ∀ st : HealthStatus × Nat × String, l ≠ [] →
      (∀ w ∈ l, w.desiredReplicas = 0) →
      l.foldl appWorkloadStep st = (NOT_READY, st.2.1, "scaled to 0 replicas") := by
  induction l with
  | nil => intro st h hall; exact absurd rfl h
  | cons w t ih =>
    intro st hne hall
    rw [List.foldl_cons, appWorkloadStep_scaled_to_zero st w (hall w (List.mem_cons_self w t))]
    rcases t with _ | ⟨w2, t2⟩
    · rfl
    · exact ih _ (by simp) (fun x hx => hall x (List.mem_cons_of_mem _ hx))

/-- Merging NOT_READY with a request status yields UNHEALTHY exactly when
the request status itself is UNHEALTHY. -/
theorem mergeNotReady_unhealthy_iff (r : HealthStatus) :
    mergeHealthStatus NOT_READY r = UNHEALTHY ↔ r = UNHEALTHY := by
  cases r <;> decide

/-- C2 (amended): for an app whose every workload status is scaled to zero
(and for a workload whose workload status is scaled to zero), the
workload-derived status is NOT_READY — never UNHEALTHY — but the final
classification is its merge with the request-health status, so it is
UNHEALTHY exactly when the request evaluator reports UNHEALTHY (a high
error rate can override NOT_READY). -/
theorem scaled_to_zero_merges_with_request_status :
    ∀ (app : AppHealth) (wl : WorkloadHealth) (ws : WorkloadStatus),
      app.workloadStatuses ≠ [] →
      (∀ w ∈ app.workloadStatuses, w.desiredReplicas = 0) →
      wl.workloadStatus = some ws →
      ws.desiredReplicas = 0 →
      (evaluateAppHealth app).1
          = mergeHealthStatus NOT_READY (evaluateRequestHealth app.requests).1
      ∧ ((evaluateAppHealth app).1 = UNHEALTHY
          ↔ (evaluateRequestHealth app.requests).1 = UNHEALTHY)
      ∧ (evaluateWorkloadHealth wl).1
          = mergeHealthStatus NOT_READY (evaluateRequestHealth wl.requests).1
      ∧ ((evaluateWorkloadHealth wl).1 = UNHEALTHY
          ↔ (evaluateRequestHealth wl.requests).1 = UNHEALTHY) := by
  intro app wl ws hne hall hsome hdz
  have hlen : ¬ app.workloadStatuses.length = 0 := by
    simpa [List.length_eq_zero] using hne
  have happ : (evaluateAppHealth app).1
      = mergeHealthStatus NOT_READY (evaluateRequestHealth app.requests).1 := by
    unfold evaluateAppHealth
    rw [if_neg hlen, appFold_scaled_to_zero _ _ hne hall]
  have hwl : (evaluateWorkloadHealth wl).1
      = mergeHealthStatus NOT_READY (evaluateRequestHealth wl.requests).1 := by
    unfold evaluateWorkloadHealth workloadStatusEval
    rw [hsome]
    by_cases hp : ws.syncedProxies ≥ 0 ∧ ws.syncedProxies < ws.availableReplicas
    · simp [hdz, hp]
    · simp [hdz, hp]
  exact ⟨happ, by rw [happ]; exact mergeNotReady_unhealthy_iff _,
    hwl, by rw [hwl]; exact mergeNotReady_unhealthy_iff _⟩

/-- C2 counterexample: an app (and a workload) with every workload status
scaled to zero replicas but whose traffic is 100% http 500 errors is
classified UNHEALTHY — the claim's "includes NOT_READY and is never
UNHEALTHY, regardless of the entity's request error rate" fails. -/
theorem scaled_to_zero_unhealthy_counterexample :
    exC2App.workloadStatuses.all (fun w => w.desiredReplicas == 0) = true
    ∧ (evaluateAppHealth exC2App).1 = UNHEALTHY
    ∧ (evaluateWorkloadHealth exC2Workload).1 = UNHEALTHY := by
  refine ⟨by decide, ?_, ?_⟩ <;>
    norm_num [exC2App, exC2Workload, evaluateAppHealth, evaluateWorkloadHealth,
      workloadStatusEval, appWorkloadStep, evaluateRequestHealth, processRequests,
      processProtocol, processCode, isErrorCode, isCodeClass, getStatusForCodeRatio,
      mergeHealthStatus, statusPriority, hasAnyRequests]

/-- C2 witness: the amended theorem applied to the concrete scaled-to-zero
app and workload. -/
theorem scaled_to_zero_merges_with_request_status_witness :
    (evaluateAppHealth exC2App).1
        = mergeHealthStatus NOT_READY (evaluateRequestHealth exC2App.requests).1
    ∧ (evaluateWorkloadHealth exC2Workload).1
        = mergeHealthStatus NOT_READY (evaluateRequestHealth exC2Workload.requests).1 := by
  have h := scaled_to_zero_merges_with_request_status exC2App exC2Workload
    ⟨"w1", 0, 0, 0, 0⟩ (by decide) (by decide) (by decide) (by decide)
  exact ⟨h.1, h.2.2.1⟩

/-- C3 counterexample: with 10 apps all healthy and a mesh-wide error rate
of 10%, the namespace rules applied to the mesh counts give UNHEALTHY
(error rate above 5%) while `computeOverallStatus` — which takes no
error-rate input at all — returns HEALTHY. -/
theorem computeOverallStatus_ignores_error_rate_counterexample :
    computeOverallStatus ⟨⟨10, 10, 0, 0, 0⟩, zeroCounts, zeroCounts⟩ = HEALTHY
    ∧ meshOverallStatusSpec ⟨⟨10, 10, 0, 0, 0⟩, zeroCounts, zeroCounts⟩ (1/10) = UNHEALTHY
    ∧ computeOverallStatus ⟨⟨10, 10, 0, 0, 0⟩, zeroCounts, zeroCounts⟩
        ≠ meshOverallStatusSpec ⟨⟨10, 10, 0, 0, 0⟩, zeroCounts, zeroCounts⟩ (1/10) := by
  refine ⟨?_, ?_, ?_⟩ <;>
    norm_num [computeOverallStatus, meshOverallStatusSpec, computeNamespaceStatus, zeroCounts] <;>
    decide

/-- C3 (amended): `computeOverallStatus` takes no error-rate input, so the
mesh-wide status follows the namespace rules only where the error rate is
irrelevant: whenever there are no degraded entities and the total error
rate is below the 1% HEALTHY threshold, the two rule sets agree on the
mesh-wide counts. -/
theorem computeOverallStatus_matches_namespace_rules_when_error_free :
    ∀ (counts : EntityHealthCounts) (errorRate : ℚ),
      counts.apps.degraded + counts.services.degraded + counts.workloads.degraded = 0 →
      errorRate < 1/100 →
      computeOverallStatus counts = meshOverallStatusSpec counts errorRate := by
  intro c err hdeg herr
  have herr5 : ¬ err > 5/100 := by linarith
  have herr' : err < (100:ℚ)⁻¹ := by rwa [one_div] at herr
  unfold computeOverallStatus meshOverallStatusSpec computeNamespaceStatus
  by_cases h1 : c.apps.total + c.services.total + c.workloads.total = 0
  · simp [h1]
  · by_cases h2 : c.apps.unhealthy + c.services.unhealthy + c.workloads.unhealthy = 0
    · simp [h1, h2, hdeg, herr, herr']
    · have hu : c.apps.unhealthy + c.services.unhealthy + c.workloads.unhealthy > 0 :=
        Nat.pos_of_ne_zero h2
      by_cases h3 : c.apps.unhealthy + c.services.unhealthy + c.workloads.unhealthy
          > (c.apps.total + c.services.total + c.workloads.total) / 2
      · simp [h1, h2, h3, hu, herr5]
      · simp [h1, h2, h3, hu, herr5]

/-- C3 witness: the agreement theorem applied to the all-zero mesh counts
with a zero error rate (both sides UNKNOWN). -/
theorem computeOverallStatus_matches_namespace_rules_witness :
    computeOverallStatus zeroEntityCounts = meshOverallStatusSpec zeroEntityCounts 0 :=
  computeOverallStatus_matches_namespace_rules_when_error_free zeroEntityCounts 0
    (by decide) (by norm_num)

/-- A list of nonnegative rationals summing to zero is all zeros. -/
theorem list_sum_zero_of_nonneg :
    ∀ (l : List ℚ), (∀ x ∈ l, 0 ≤ x) → l.sum = 0 → ∀ x ∈ l, x = 0 := by
  intro l
  induction l with
  | nil => simp
  | cons a t ih =>
    intro hn h0
    have ha : 0 ≤ a := hn a (List.mem_cons_self a t)
    have ht : ∀ x ∈ t, 0 ≤ x := fun x hx => hn x (List.mem_cons_of_mem _ hx)
    have hts : 0 ≤ t.sum := List.sum_nonneg ht
    have hsum : a + t.sum = 0 := by simpa using h0
    intro x hx
    rcases List.mem_cons.mp hx with rfl | hx2
    · linarith
    · exact ih ht (by linarith) x hx2

/-- The request evaluator's protocol loop leaves the state unchanged when
every protocol's total count is zero (each protocol is skipped). -/
theorem processRequests_skips_zero_totals :
    ∀ (l : List (String × List (String × ℚ))) (st : HealthStatus × ℚ),
      (∀ p ∈ l, (p.2.map Prod.snd).sum = 0) → processRequests st l = st := by
  intro l
  induction l with
  | nil => intro st h; rfl
  | cons p t ih =>
    intro st hall
    have hp : (p.2.map Prod.snd).sum = 0 := hall p (List.mem_cons_self p t)
    unfold processRequests at ih ⊢
    rw [List.foldl_cons]
    have hstep : processProtocol st p = st := by simp [processProtocol, hp]
    rw [hstep]
    exact ih st (fun q hq => hall q (List.mem_cons_of_mem _ hq))

/-- C7: for every RequestHealth whose total request count across all
protocols and both directions is zero (all counts nonnegative, as they are
observed counters), `evaluateRequestHealth` returns status HEALTHY and
worst ratio 0. -/
theorem evaluateRequestHealth_zero_traffic :
    ∀ req : RequestHealth,
      (∀ p ∈ req.inbound ++ req.outbound, ∀ c ∈ p.2, 0 ≤ c.2) →
      totalRequestCount req = 0 →
      evaluateRequestHealth req = (HEALTHY, 0) := by
  intro req hn h0
  have hpn : ∀ p ∈ req.inbound ++ req.outbound, 0 ≤ (p.2.map Prod.snd).sum := by
    intro p hp
    apply List.sum_nonneg
    intro x hx
    obtain ⟨c, hc, rfl⟩ := List.mem_map.mp hx
    exact hn p hp c hc
  have hz : ∀ p ∈ req.inbound ++ req.outbound, (p.2.map Prod.snd).sum = 0 := by
    have hmapn : ∀ x ∈ (req.inbound ++ req.outbound).map (fun p => (p.2.map Prod.snd).sum),
        0 ≤ x := by
      intro x hx
      obtain ⟨q, hq, rfl⟩ := List.mem_map.mp hx
      exact hpn q hq
    have hall := list_sum_zero_of_nonneg _ hmapn h0
    intro p hp
    exact hall _ (List.mem_map_of_mem _ hp)
  have hzin : ∀ p ∈ req.inbound, (p.2.map Prod.snd).sum = 0 :=
    fun p hp => hz p (List.mem_append_left _ hp)
  have hzout : ∀ p ∈ req.outbound, (p.2.map Prod.snd).sum = 0 :=
    fun p hp => hz p (List.mem_append_right _ hp)
  unfold evaluateRequestHealth
  rw [processRequests_skips_zero_totals req.inbound (HEALTHY, 0) hzin,
    processRequests_skips_zero_totals req.outbound (HEALTHY, 0) hzout]

/-- C7 witness: a RequestHealth with one protocol entry whose only count is
zero evaluates to (HEALTHY, 0). -/
theorem evaluateRequestHealth_zero_traffic_witness :
    evaluateRequestHealth ⟨[("http", [("200", 0)])], [], []⟩ = (HEALTHY, 0) :=
  evaluateRequestHealth_zero_traffic ⟨[("http", [("200", 0)])], [], []⟩
    (by simp) (by norm_num [totalRequestCount])

/-- The per-code accumulation loop of `calculateErrorRate` adds the
protocol's total count and its error-classified count to the state. -/
theorem calcCodes_spec (s : String) :
    ∀ (codes : List (String × ℚ)) (b : ℚ × ℚ),
      codes.foldl (fun b c =>
          (b.1 + c.2, if isErrorCode s c.1 then b.2 + c.2 else b.2)) b
        = (b.1 + (codes.map Prod.snd).sum,
           b.2 + ((codes.filter (fun c => isErrorCode s c.1)).map Prod.snd).sum) := by
  intro codes
  induction codes with
  | nil => intro b; simp
  | cons c cs ih =>
    intro b
    rw [List.foldl_cons, ih]
    by_cases hc : isErrorCode s c.1
    · simp [hc, List.filter_cons, Prod.ext_iff, add_assoc]
    · simp [hc, List.filter_cons, Prod.ext_iff, add_assoc]

/-- `calcDirection` adds the direction's pooled total and pooled error
count to the state. -/
theorem calcDirection_spec :
    ∀ (l : List (String × List (String × ℚ))) (acc : ℚ × ℚ),
      calcDirection acc l
        = (acc.1 + (l.map (fun p => (p.2.map Prod.snd).sum)).sum,
           acc.2 + (l.map (fun p =>
             ((p.2.filter (fun c => isErrorCode p.1 c.1)).map Prod.snd).sum)).sum) := by
  intro l
  induction l with
  | nil => intro acc; simp [calcDirection]
  | cons p ps ih =>
    intro acc
    unfold calcDirection at ih ⊢
    rw [List.foldl_cons, ih]
    simp only [calcCodes_spec, List.map_cons, List.sum_cons, Prod.ext_iff]
    constructor <;> ring

/-- Dropping list entries by a filter cannot increase the sum of their
nonnegative values. -/
theorem filter_map_sum_le (q : String × ℚ → Bool) :
    ∀ (codes : List (String × ℚ)), (∀ c ∈ codes, 0 ≤ c.2) →
      ((codes.filter q).map Prod.snd).sum ≤ (codes.map Prod.snd).sum := by
  intro codes
  induction codes with
  | nil => simp
  | cons c cs ih =>
    intro hn
    have hc : 0 ≤ c.2 := hn c (List.mem_cons_self c cs)
    have ht := ih (fun x hx => hn x (List.mem_cons_of_mem _ hx))
    by_cases hq : q c
    · simp [List.filter_cons, hq]
      linarith
    · simp [List.filter_cons, hq]
      linarith

/-- The error-rate tally of computeHealthSummary accumulates exactly the
sum of the entities' pooled error rates. -/
theorem tallyEntities_errSum {α : Type} (etype ns : String)
    (eval : α → HealthStatus × String) (getReq : α → RequestHealth) :
    ∀ (es : List (String × α)) (init : EntityTally),
      (tallyEntities etype ns eval getReq es init).errSum
        = init.errSum + (es.map (fun e => calculateErrorRate (getReq e.2))).sum := by
  intro es
  induction es with
  | nil => intro init; simp [tallyEntities]
  | cons e t ih =>
    intro init
    unfold tallyEntities at ih ⊢
    rw [List.foldl_cons, ih]
    simp [tallyEntity]
    ring

/-- C10: the entity error rate used for UnhealthyEntity records and the
namespace error-rate sum is `calculateErrorRate`: the pooled fraction
(error-classified count) / (all counts) over both directions and all
protocols, 0 when there are no requests; with nonnegative counts it lies
in [0,1]; the per-namespace error sum accumulates exactly these pooled
rates; and it differs in general from the worst per-protocol ratio of
`evaluateRequestHealth`. -/
theorem calculateErrorRate_is_pooled_fraction :
    ∀ req : RequestHealth,
      (∀ p ∈ req.inbound ++ req.outbound, ∀ c ∈ p.2, 0 ≤ c.2) →
      (calculateErrorRate req
          = if totalRequestCount req = 0 then 0
            else errorRequestCount req / totalRequestCount req)
      ∧ 0 ≤ calculateErrorRate req
      ∧ calculateErrorRate req ≤ 1
      ∧ (∀ (etype ns : String) (es : List (String × AppHealth)),
          (tallyEntities etype ns evaluateAppHealth (fun a => a.requests) es emptyTally).errSum
            = (es.map (fun e => calculateErrorRate e.2.requests)).sum)
      ∧ calculateErrorRate exC10 ≠ (evaluateRequestHealth exC10).2 := by
  intro req hn
  have hpool : calculateErrorRate req
      = if totalRequestCount req = 0 then 0
        else errorRequestCount req / totalRequestCount req := by
    unfold calculateErrorRate
    rw [calcDirection_spec, calcDirection_spec]
    simp [totalRequestCount, errorRequestCount, List.map_append, List.sum_append]
  have hTnn : 0 ≤ totalRequestCount req := by
    unfold totalRequestCount
    apply List.sum_nonneg
    intro x hx
    obtain ⟨p, hp, rfl⟩ := List.mem_map.mp hx
    apply List.sum_nonneg
    intro y hy
    obtain ⟨c, hc, rfl⟩ := List.mem_map.mp hy
    exact hn p hp c hc
  have hEnn : 0 ≤ errorRequestCount req := by
    unfold errorRequestCount
    apply List.sum_nonneg
    intro x hx
    obtain ⟨p, hp, rfl⟩ := List.mem_map.mp hx
    apply List.sum_nonneg
    intro y hy
    obtain ⟨c, hc, rfl⟩ := List.mem_map.mp hy
    exact hn p hp c (List.mem_filter.mp hc).1
  have hET : errorRequestCount req ≤ totalRequestCount req := by
    unfold totalRequestCount errorRequestCount
    apply List.sum_le_sum
    intro p hp
    exact filter_map_sum_le _ p.2 (hn p hp)
  refine ⟨hpool, ?_, ?_, ?_, ?_⟩
  · rw [hpool]
    split_ifs with h
    · exact le_refl 0
    · exact div_nonneg hEnn hTnn
  · rw [hpool]
    split_ifs with h
    · exact zero_le_one
    · have hT : 0 < totalRequestCount req := lt_of_le_of_ne hTnn (Ne.symm h)
      exact (div_le_one hT).mpr hET
  · intro etype ns es
    rw [tallyEntities_errSum]
    simp [emptyTally]
  · norm_num [exC10, calculateErrorRate, calcDirection, evaluateRequestHealth,
      processRequests, processProtocol, processCode, isErrorCode, isCodeClass,
      getStatusForCodeRatio]
    try simp
    try norm_num

/-- C10 witness: the pooled-fraction theorem applied to the two-protocol
example, whose counts are nonnegative. -/
theorem calculateErrorRate_is_pooled_fraction_witness :
    0 ≤ calculateErrorRate exC10 ∧ calculateErrorRate exC10 ≤ 1 := by
  have h := calculateErrorRate_is_pooled_fraction exC10 (by norm_num [exC10])
  exact ⟨h.2.1, h.2.2.1⟩

/-- The bucket switch never touches the running total. -/
theorem bucketInc_total (c : HealthCounts) (s : HealthStatus) :
    (bucketInc c s).total = c.total := by
  cases s <;> rfl

/-- The bucket switch adds one to the four-bucket sum unless the status is
UNKNOWN, which falls through without incrementing any bucket. -/
theorem bucketSum_bucketInc (c : HealthCounts) (s : HealthStatus) :
    bucketSum (bucketInc c s) = bucketSum c + (if s = UNKNOWN then 0 else 1) := by
  cases s <;> simp [bucketInc, bucketSum] <;> omega

/-- Every processed entity increments the entity-type total by one. -/
theorem tallyEntities_total {α : Type} (etype ns : String)
    (eval : α → HealthStatus × String) (getReq : α → RequestHealth) :
    ∀ (es : List (String × α)) (init : EntityTally),
      (tallyEntities etype ns eval getReq es init).counts.total
        = init.counts.total + es.length := by
  intro es
  induction es with
  | nil => intro init; simp [tallyEntities]
  | cons e t ih =>
    intro init
    unfold tallyEntities at ih ⊢
    rw [List.foldl_cons, ih]
    simp [tallyEntity, bucketInc_total]
    omega

/-- Every processed entity increments exactly one of the four buckets,
except UNKNOWN-classified entities which increment none. -/
theorem tallyEntities_bucketSum {α : Type} (etype ns : String)
    (eval : α → HealthStatus × String) (getReq : α → RequestHealth) :
    ∀ (es : List (String × α)) (init : EntityTally),
      bucketSum (tallyEntities etype ns eval getReq es init).counts
          + unknownCountIn eval es
        = bucketSum init.counts + es.length := by
  intro es
  induction es with
  | nil => intro init; simp [tallyEntities, unknownCountIn]
  | cons e t ih =>
    intro init
    unfold tallyEntities at ih ⊢
    rw [List.foldl_cons]
    have h := ih (tallyEntity etype ns eval getReq init e)
    have hproj : (tallyEntity etype ns eval getReq init e).counts
        = bucketInc { init.counts with total := init.counts.total + 1 } (eval e.2).1 := rfl
    have hcount : unknownCountIn eval (e :: t)
        = unknownCountIn eval t + (if (eval e.2).1 = UNKNOWN then 1 else 0) := by
      simp [unknownCountIn, List.countP_cons]
    rw [List.length_cons, hcount]
    by_cases hs : (eval e.2).1 = UNKNOWN
    · have hb : bucketSum (tallyEntity etype ns eval getReq init e).counts
          = bucketSum init.counts := by
        rw [hproj, bucketSum_bucketInc, hs]
        simp [bucketSum]
      rw [if_pos hs]
      omega
    · have hb : bucketSum (tallyEntity etype ns eval getReq init e).counts
          = bucketSum init.counts + 1 := by
        rw [hproj, bucketSum_bucketInc]
        simp [hs, bucketSum]
      rw [if_neg hs]
      omega

/-- Adding counts adds totals. -/
theorem addCounts_total (a b : HealthCounts) : (addCounts a b).total = a.total + b.total := rfl

/-- Adding counts adds four-bucket sums. -/
theorem bucketSum_addCounts (a b : HealthCounts) :
    bucketSum (addCounts a b) = bucketSum a + bucketSum b := by
  simp [addCounts, bucketSum]
  omega

/-- Folding the summary step accumulates, for apps, the per-namespace
entity totals and four-bucket sums (the latter short of the UNKNOWN
entities). -/
theorem summaryFold_apps (appH svcH wlH : ClustersNamespaceHealth) :
    ∀ (nss : List String)
      (acc : EntityHealthCounts × List (String × NamespaceSummary) × List UnhealthyEntity),
      ((nss.foldl (summaryStep appH svcH wlH) acc).1.apps.total
          = acc.1.apps.total + (nss.map (fun ns => (nsAppEntities appH ns).length)).sum)
      ∧ (bucketSum (nss.foldl (summaryStep appH svcH wlH) acc).1.apps
            + appUnknownTotal appH nss
          = bucketSum acc.1.apps
            + (nss.map (fun ns => (nsAppEntities appH ns).length)).sum) := by
  intro nss
  induction nss with
  | nil => intro acc; simp [appUnknownTotal]
  | cons ns rest ih =>
    intro acc
    rw [List.foldl_cons]
    obtain ⟨ih1, ih2⟩ := ih (summaryStep appH svcH wlH acc ns)
    have hstep : (summaryStep appH svcH wlH acc ns).1.apps
        = addCounts acc.1.apps
            (tallyEntities "app" ns evaluateAppHealth (fun a => a.requests)
              (nsAppEntities appH ns) emptyTally).counts := rfl
    have ht := tallyEntities_total "app" ns evaluateAppHealth (fun a => a.requests)
      (nsAppEntities appH ns) emptyTally
    have hb := tallyEntities_bucketSum "app" ns evaluateAppHealth (fun a => a.requests)
      (nsAppEntities appH ns) emptyTally
    have het : emptyTally.counts.total = 0 := rfl
    have heb : bucketSum emptyTally.counts = 0 := rfl
    rw [hstep] at ih1 ih2
    rw [addCounts_total] at ih1
    rw [bucketSum_addCounts] at ih2
    constructor
    · simp only [List.map_cons, List.sum_cons]
      omega
    · simp only [appUnknownTotal, List.map_cons, List.sum_cons] at ih2 ⊢
      omega

/-- Folding the summary step accumulates, for services, the per-namespace
entity totals and four-bucket sums. -/
theorem summaryFold_services (appH svcH wlH : ClustersNamespaceHealth) :
    ∀ (nss : List String)
      (acc : EntityHealthCounts × List (String × NamespaceSummary) × List UnhealthyEntity),
      ((nss.foldl (summaryStep appH svcH wlH) acc).1.services.total
          = acc.1.services.total
            + (nss.map (fun ns => (nsServiceEntities svcH ns).length)).sum)
      ∧ (bucketSum (nss.foldl (summaryStep appH svcH wlH) acc).1.services
            + svcUnknownTotal svcH nss
          = bucketSum acc.1.services
            + (nss.map (fun ns => (nsServiceEntities svcH ns).length)).sum) := by
  intro nss
  induction nss with
  | nil => intro acc; simp [svcUnknownTotal]
  | cons ns rest ih =>
    intro acc
    rw [List.foldl_cons]
    obtain ⟨ih1, ih2⟩ := ih (summaryStep appH svcH wlH acc ns)
    have hstep : (summaryStep appH svcH wlH acc ns).1.services
        = addCounts acc.1.services
            (tallyEntities "service" ns evaluateServiceHealth (fun s => s.requests)
              (nsServiceEntities svcH ns) emptyTally).counts := rfl
    have ht := tallyEntities_total "service" ns evaluateServiceHealth (fun s => s.requests)
      (nsServiceEntities svcH ns) emptyTally
    have hb := tallyEntities_bucketSum "service" ns evaluateServiceHealth (fun s => s.requests)
      (nsServiceEntities svcH ns) emptyTally
    have het : emptyTally.counts.total = 0 := rfl
    have heb : bucketSum emptyTally.counts = 0 := rfl
    rw [hstep] at ih1 ih2
    rw [addCounts_total] at ih1
    rw [bucketSum_addCounts] at ih2
    constructor
    · simp only [List.map_cons, List.sum_cons]
      omega
    · simp only [svcUnknownTotal, List.map_cons, List.sum_cons] at ih2 ⊢
      omega

/-- Folding the summary step accumulates, for workloads, the per-namespace
entity totals and four-bucket sums. -/
theorem summaryFold_workloads (appH svcH wlH : ClustersNamespaceHealth) :
    ∀ (nss : List String)
      (acc : EntityHealthCounts × List (String × NamespaceSummary) × List UnhealthyEntity),
      ((nss.foldl (summaryStep appH svcH wlH) acc).1.workloads.total
          = acc.1.workloads.total
            + (nss.map (fun ns => (nsWorkloadEntities wlH ns).length)).sum)
      ∧ (bucketSum (nss.foldl (summaryStep appH svcH wlH) acc).1.workloads
            + wlUnknownTotal wlH nss
          = bucketSum acc.1.workloads
            + (nss.map (fun ns => (nsWorkloadEntities wlH ns).length)).sum) := by
  intro nss
  induction nss with
  | nil => intro acc; simp [wlUnknownTotal]
  | cons ns rest ih =>
    intro acc
    rw [List.foldl_cons]
    obtain ⟨ih1, ih2⟩ := ih (summaryStep appH svcH wlH acc ns)
    have hstep : (summaryStep appH svcH wlH acc ns).1.workloads
        = addCounts acc.1.workloads
            (tallyEntities "workload" ns evaluateWorkloadHealth (fun w => w.requests)
              (nsWorkloadEntities wlH ns) emptyTally).counts := rfl
    have ht := tallyEntities_total "workload" ns evaluateWorkloadHealth (fun w => w.requests)
      (nsWorkloadEntities wlH ns) emptyTally
    have hb := tallyEntities_bucketSum "workload" ns evaluateWorkloadHealth (fun w => w.requests)
      (nsWorkloadEntities wlH ns) emptyTally
    have het : emptyTally.counts.total = 0 := rfl
    have heb : bucketSum emptyTally.counts = 0 := rfl
    rw [hstep] at ih1 ih2
    rw [addCounts_total] at ih1
    rw [bucketSum_addCounts] at ih2
    constructor
    · simp only [List.map_cons, List.sum_cons]
      omega
    · simp only [wlUnknownTotal, List.map_cons, List.sum_cons] at ih2 ⊢
      omega

/-- C1 counterexample: one app with an empty workload-status list is
classified UNKNOWN, yet its type's Total is still incremented while no
bucket is: total = 1 but healthy+degraded+unhealthy+notReady = 0 — the
four buckets do not partition `total`, and the UNKNOWN entity is not
excluded from `total`. -/
theorem computeHealthSummary_unknown_in_total_counterexample :
    (computeHealthSummary exC1App exEmptyClusters exEmptyClusters "10m").entityCounts.apps.total
        = 1
    ∧ bucketSum
        (computeHealthSummary exC1App exEmptyClusters exEmptyClusters "10m").entityCounts.apps
        = 0 := by
  constructor <;> decide

/-- C1 (amended): for every aggregation run and entity type,
total = healthy + degraded + unhealthy + notReady + (number of
UNKNOWN-classified entities of that type): UNKNOWN entities are counted in
`total` but fall into none of the four buckets, so the buckets partition
`total` only in the absence of UNKNOWN entities. -/
theorem computeHealthSummary_total_buckets_and_unknown :
    ∀ (appH svcH wlH : ClustersNamespaceHealth) (ri : String),
      ((computeHealthSummary appH svcH wlH ri).entityCounts.apps.total
          = bucketSum (computeHealthSummary appH svcH wlH ri).entityCounts.apps
            + appUnknownTotal appH (summaryNamespaces appH svcH wlH))
      ∧ ((computeHealthSummary appH svcH wlH ri).entityCounts.services.total
          = bucketSum (computeHealthSummary appH svcH wlH ri).entityCounts.services
            + svcUnknownTotal svcH (summaryNamespaces appH svcH wlH))
      ∧ ((computeHealthSummary appH svcH wlH ri).entityCounts.workloads.total
          = bucketSum (computeHealthSummary appH svcH wlH ri).entityCounts.workloads
            + wlUnknownTotal wlH (summaryNamespaces appH svcH wlH)) := by
  intro appH svcH wlH ri
  obtain ⟨hA1, hA2⟩ := summaryFold_apps appH svcH wlH (summaryNamespaces appH svcH wlH)
    (zeroEntityCounts, [], [])
  obtain ⟨hS1, hS2⟩ := summaryFold_services appH svcH wlH (summaryNamespaces appH svcH wlH)
    (zeroEntityCounts, [], [])
  obtain ⟨hW1, hW2⟩ := summaryFold_workloads appH svcH wlH (summaryNamespaces appH svcH wlH)
    (zeroEntityCounts, [], [])
  have hz1 : (zeroEntityCounts, ([] : List (String × NamespaceSummary)),
      ([] : List UnhealthyEntity)).1.apps.total = 0 := rfl
  have hz2 : bucketSum (zeroEntityCounts, ([] : List (String × NamespaceSummary)),
      ([] : List UnhealthyEntity)).1.apps = 0 := rfl
  have hz3 : (zeroEntityCounts, ([] : List (String × NamespaceSummary)),
      ([] : List UnhealthyEntity)).1.services.total = 0 := rfl
  have hz4 : bucketSum (zeroEntityCounts, ([] : List (String × NamespaceSummary)),
      ([] : List UnhealthyEntity)).1.services = 0 := rfl
  have hz5 : (zeroEntityCounts, ([] : List (String × NamespaceSummary)),
      ([] : List UnhealthyEntity)).1.workloads.total = 0 := rfl
  have hz6 : bucketSum (zeroEntityCounts, ([] : List (String × NamespaceSummary)),
      ([] : List UnhealthyEntity)).1.workloads = 0 := rfl
  refine ⟨?_, ?_, ?_⟩ <;> simp only [computeHealthSummary] <;> omega

/-- The inner exchange pass preserves the length of the remainder. -/
theorem selectSwap_length : ∀ (l : List UnhealthyEntity) (cur : UnhealthyEntity),
    (selectSwap cur l).2.length = l.length := by
  intro l
  induction l with
  | nil => intro cur; rfl
  | cons x xs ih =>
    intro cur
    unfold selectSwap
    by_cases hx : x.errorRate > cur.errorRate
    · simp [hx, ih]
    · simp [hx, ih]

/-- The inner exchange pass permutes the current element and the tail. -/
theorem selectSwap_perm : ∀ (l : List UnhealthyEntity) (cur : UnhealthyEntity),
    ((selectSwap cur l).1 :: (selectSwap cur l).2).Perm (cur :: l) := by
  intro l
  induction l with
  | nil => intro cur; exact List.Perm.refl _
  | cons x xs ih =>
    intro cur
    unfold selectSwap
    by_cases hx : x.errorRate > cur.errorRate
    · simp only [hx, if_true]
      exact (List.Perm.swap cur (selectSwap x xs).1 (selectSwap x xs).2).trans
        ((ih x).cons cur)
    · simp only [hx, if_false]
      exact ((List.Perm.swap x (selectSwap cur xs).1 (selectSwap cur xs).2).trans
        ((ih cur).cons x)).trans (List.Perm.swap cur x xs)

/-- The element selected by the inner pass has at least the current
element's error rate. -/
theorem selectSwap_fst_le : ∀ (l : List UnhealthyEntity) (cur : UnhealthyEntity),
    cur.errorRate ≤ (selectSwap cur l).1.errorRate := by
  intro l
  induction l with
  | nil => intro cur; exact le_refl _
  | cons x xs ih =>
    intro cur
    unfold selectSwap
    by_cases hx : x.errorRate > cur.errorRate
    · simp only [hx, if_true]
      exact le_trans (le_of_lt hx) (ih x)
    · simp only [hx, if_false]
      exact ih cur

/-- The element selected by the inner pass dominates everything left in
the remainder. -/
theorem selectSwap_max : ∀ (l : List UnhealthyEntity) (cur y : UnhealthyEntity),
    y ∈ (selectSwap cur l).2 → y.errorRate ≤ (selectSwap cur l).1.errorRate := by
  intro l
  induction l with
  | nil => intro cur y hy; simp [selectSwap] at hy
  | cons x xs ih =>
    intro cur y hy
    unfold selectSwap at hy ⊢
    by_cases hx : x.errorRate > cur.errorRate
    · simp only [hx, if_true] at hy ⊢
      rcases List.mem_cons.mp hy with rfl | hy2
      · exact le_trans (le_of_lt hx) (selectSwap_fst_le xs x)
      · exact ih x y hy2
    · simp only [hx, if_false] at hy ⊢
      rcases List.mem_cons.mp hy with rfl | hy2
      · exact le_trans (le_of_not_lt hx) (selectSwap_fst_le xs cur)
      · exact ih cur y hy2

/-- The exchange sort permutes its input. -/
theorem sortPass_perm : ∀ (n : Nat) (l : List UnhealthyEntity), l.length = n →
    (sortPass n l).Perm l := by
  intro n
  induction n with
  | zero =>
    intro l h
    rw [List.length_eq_zero] at h
    subst h
    exact List.Perm.refl _
  | succ n ih =>
    intro l h
    cases l with
    | nil => exact List.Perm.refl _
    | cons x xs =>
      have hlen : (selectSwap x xs).2.length = n := by
        rw [selectSwap_length]
        simpa using h
      unfold sortPass
      exact ((ih _ hlen).cons (selectSwap x xs).1).trans (selectSwap_perm xs x)

/-- The exchange sort yields a list ordered by nonincreasing error rate. -/
theorem sortPass_sorted : ∀ (n : Nat) (l : List UnhealthyEntity), l.length = n →
    List.Pairwise (fun a b => b.errorRate ≤ a.errorRate) (sortPass n l) := by
  intro n
  induction n with
  | zero =>
    intro l h
    rw [List.length_eq_zero] at h
    subst h
    simp [sortPass]
  | succ n ih =>
    intro l h
    cases l with
    | nil => simp [sortPass]
    | cons x xs =>
      have hlen : (selectSwap x xs).2.length = n := by
        rw [selectSwap_length]
        simpa using h
      unfold sortPass
      refine List.Pairwise.cons ?_ (ih _ hlen)
      intro y hy
      have hy2 : y ∈ (selectSwap x xs).2 := ((sortPass_perm n _ hlen).mem_iff).mp hy
      exact selectSwap_max xs x y hy2

/-- C4 (amended): `sortUnhealthyByImpact` sorts by errorRate descending —
the result is a permutation of the input ordered by nonincreasing
errorRate — and `computeHealthSummary` truncates the ranked list to at
most 10 entries; the tie-break is NOT stable (see the counterexample). -/
theorem sortUnhealthyByImpact_sorts_and_truncates :
    (∀ l : List UnhealthyEntity,
        (sortUnhealthyByImpact l).Perm l
        ∧ List.Pairwise (fun a b => b.errorRate ≤ a.errorRate) (sortUnhealthyByImpact l))
    ∧ (∀ (appH svcH wlH : ClustersNamespaceHealth) (ri : String),
        (computeHealthSummary appH svcH wlH ri).topUnhealthy.length ≤ 10) := by
  constructor
  · intro l
    exact ⟨sortPass_perm l.length l rfl, sortPass_sorted l.length l rfl⟩
  · intro appH svcH wlH ri
    simp only [computeHealthSummary]
    rw [List.length_take]
    omega

/-- C4 counterexample: on discovery order [a(2), b(3), c(2), d(3)] the
exchange sort returns [b, d, c, a]: descending by rate, but the tied
entries a and c appear in reversed discovery order, so the tie-break is
not stable. -/
theorem sortUnhealthyByImpact_not_stable_counterexample :
    sortUnhealthyByImpact exC4Input
        = [exC4 "b" 3, exC4 "d" 3, exC4 "c" 2, exC4 "a" 2]
    ∧ sortUnhealthyByImpact exC4Input
        ≠ [exC4 "b" 3, exC4 "d" 3, exC4 "a" 2, exC4 "c" 2] := by
  constructor <;>
    norm_num [sortUnhealthyByImpact, sortPass, selectSwap, exC4Input, exC4]
  decide
